import Mathlib

/-!
Verification development for the navigation guidance engine of the
`Final_year` campus-navigation app.

The engine lives in `src/hooks/useNavigationEngine.ts`.  Its pure helpers
(`normalizeBearingDifference`, `findNearestNode`,
`generateMovementInstruction`) and its stateful callbacks
(`updateNavigationState`, `handleLocationUpdate`, `handleLocationError`)
are shallowly embedded below.  Conventions of the embedding:

* JavaScript numbers are modelled as rationals (`ℚ`); array indices as `ℕ`.
* The two trigonometric geodesy helpers, `calculateDistance` (haversine)
  and `calculateBearing` (spherical initial bearing), are floating-point
  transcendental computations with no exact counterpart over `ℚ`.  Every
  property checked here is independent of the concrete metric, so both are
  passed as function parameters `ℚ → ℚ → ℚ → ℚ → ℚ` mirroring their
  source signatures `(lat1, lon1, lat2, lon2) → number`; call sites below
  mirror the source call sites argument for argument.
* Optional JavaScript values (`heading?`, `instructionText?`, `landmark?`,
  `floor?`) are modelled as `Option`; JavaScript truthiness of a string
  (where the empty string is falsy) is modelled explicitly where the
  source relies on it.
* React `useState` state is collected into one record, `EngineState`.
  A `setX(v)` call inside an event handler contributes the field update
  `x := v` to the state produced by that handler, but — per React
  semantics — does NOT change the value of `x` seen by closures created
  during the current render.  In `handleLocationUpdate` the source calls
  `setUserHeading(...)` and then `updateNavigationState(location)`;
  `updateNavigationState` is a `useCallback` closure over the render-time
  `userHeading`, so the heading it reads is the one known BEFORE the
  current fix, which the embedding makes explicit by passing that value
  as a separate argument.
* The `watchIdRef` subscription handle is carried as a `watchId` field so
  that theorems can state that the error callback leaves it untouched.
* The Firestore `createdAt` and `updatedAt` timestamps of `PathNode` are
  never read by the engine and are omitted.
-/

/-- GeoPoint coordinates from `src/types/firestore.ts`. -/
structure GeoPoint where
  latitude : ℚ
  longitude : ℚ
deriving DecidableEq

/-- Named landmark carried by a path node (`landmark?: \x7bname, description\x7d`). -/
structure Landmark where
  name : String
  description : String
deriving DecidableEq

/-- The `type` tag of a path node. -/
inductive PathNodeType where
  | waypoint
  | turn
  | landmark
  | transition
deriving DecidableEq

/-- Waypoint record `PathNode` from `src/types/firestore.ts` (the engine-relevant
fields; the `createdAt`/`updatedAt` timestamps are never read by the engine). -/
structure PathNode where
  id : String
  routeId : String
  coordinates : GeoPoint
  order : ℤ
  type : PathNodeType
  description : String
  heading : Option ℚ
  instructionText : Option String
  landmark : Option Landmark
  floor : Option ℤ
  isIndoor : Bool
deriving DecidableEq

/-- Current user GPS coordinates (`GPSLocation` in `useNavigationEngine.ts`). -/
structure GPSLocation where
  latitude : ℚ
  longitude : ℚ
  accuracy : ℚ
  timestamp : ℤ
deriving DecidableEq

/-- The `coords` payload of a raw geolocation callback argument. -/
structure LocationCoords where
  latitude : ℚ
  longitude : ℚ
  accuracy : ℚ
  heading : Option ℚ
deriving DecidableEq

/-- Raw position object passed to the geolocation success callback. -/
structure GeoPosition where
  coords : LocationCoords
  timestamp : ℤ
deriving DecidableEq

/-- Error object passed to the geolocation error callback. -/
structure GeoError where
  message : String
deriving DecidableEq

/-- The `useState` pieces of `useNavigationEngine`, collected in one record,
plus the `watchIdRef` subscription handle. -/
structure EngineState where
  currentLocation : Option GPSLocation
  nearestNodeIndex : Option ℕ
  distance : ℚ
  relativeBearing : ℚ
  userHeading : Option ℚ
  movementInstruction : String
  arrivednextNode : Bool
  arriveAtDestination : Bool
  watchId : Option ℕ
deriving DecidableEq

/-- Initial values of the `useState` hooks (and `useRef(null)` for the watch). -/
def initialEngineState : EngineState where
  currentLocation := none
  nearestNodeIndex := none
  distance := 0
  relativeBearing := 0
  userHeading := none
  movementInstruction := "Initializing navigation..."
  arrivednextNode := false
  arriveAtDestination := false
  watchId := none

/-- Arrival threshold in meters (the constant `ARRIVAL_THRESHOLD = 15`, declared
identically in `generateMovementInstruction` and in `updateNavigationState`). -/
def ARRIVAL_THRESHOLD : ℚ := 15

/-- JavaScript `Math.round`: rounds to the nearest integer, halves toward
positive infinity. -/
def jsRound (q : ℚ) : ℤ := Rat.floor (q + 1/2)

/-- Normalize bearing difference to the -180 to 180 range
(`normalizeBearingDifference`, lines 91-99). -/
def normalizeBearingDifference (bearing : ℚ) : ℚ :=
  if bearing > 180 then bearing - 360
  else if bearing < -180 then bearing + 360
  else bearing

/-- Default `PathNode` used only as the (never reached) out-of-bounds value of
`List.getD`; JavaScript indexing `pathNodes[i]` is in bounds at every use site
below, which the index-bound lemmas make precise. -/
def dummyPathNode : PathNode where
  id := ""
  routeId := ""
  coordinates := ⟨0, 0⟩
  order := 0
  type := PathNodeType.waypoint
  description := ""
  heading := none
  instructionText := none
  landmark := none
  floor := none
  isIndoor := false

/-- The scan loop of `findNearestNode` (lines 118-130): `i` is the loop counter,
`nearestIndex`/`minDistance` the running minimum; a strictly smaller distance
updates the running minimum. -/
def findNearestGo (calculateDistance : ℚ → ℚ → ℚ → ℚ → ℚ) (location : GPSLocation) :
    List PathNode → ℕ → ℕ → ℚ → ℕ × ℚ
  | [], _, nearestIndex, minDistance => (nearestIndex, minDistance)
  | node :: rest, i, nearestIndex, minDistance =>
    let distance := calculateDistance location.latitude location.longitude
      node.coordinates.latitude node.coordinates.longitude
    if distance < minDistance then
      findNearestGo calculateDistance location rest (i + 1) i distance
    else
      findNearestGo calculateDistance location rest (i + 1) nearestIndex minDistance

/-- Find the nearest path node to current location (`findNearestNode`,
lines 104-133): `none` on an empty list, otherwise the scan starts from index 0
and its initial distance. -/
def findNearestNode (calculateDistance : ℚ → ℚ → ℚ → ℚ → ℚ) (location : GPSLocation)
    (pathNodes : List PathNode) : Option ℕ :=
  match pathNodes with
  | [] => none
  | first :: rest =>
    some (findNearestGo calculateDistance location rest 1 0
      (calculateDistance location.latitude location.longitude
        first.coordinates.latitude first.coordinates.longitude)).1

/-- Generate movement instruction based on bearing change
(`generateMovementInstruction`, lines 138-187).  The `if (nextNode?.instructionText)`
guard is JavaScript truthiness: it fails when the field is absent AND when it is
the empty string. -/
def generateMovementInstruction (relativeBearing : ℚ) (distance : ℚ)
    (nextNode : Option PathNode) : String :=
  if distance < ARRIVAL_THRESHOLD then
    "You have reached the waypoint"
  else
    let instruction : String :=
      if relativeBearing < -45 then "Turn left"
      else if relativeBearing > 45 then "Turn right"
      else if relativeBearing < -15 then "Slight left"
      else if relativeBearing > 15 then "Slight right"
      else "Continue straight"
    let instruction : String :=
      match nextNode with
      | some n =>
        match n.instructionText with
        | some t => if t = "" then instruction else t
        | none => instruction
      | none => instruction
    let instruction : String :=
      match nextNode with
      | some n =>
        match n.landmark with
        | some lm => instruction ++ (" toward " ++ lm.name)
        | none => instruction
      | none => instruction
    let instruction : String :=
      match nextNode with
      | some n =>
        match n.floor with
        | some f => if n.isIndoor then instruction ++ (" (Floor " ++ toString f ++ ")") else instruction
        | none => instruction
      | none => instruction
    if distance > 100 then
      instruction ++ (" in " ++ toString (jsRound (distance / 10) * 10) ++ "m")
    else if distance > 0 then
      instruction ++ (" in " ++ toString (jsRound distance) ++ "m")
    else
      instruction

/-- Update navigation state based on current location and path nodes
(`updateNavigationState`, lines 221-282).  The `userHeading` argument is the
value the `useCallback` closure captured at render time — the heading known
BEFORE the current fix was processed (see the file comment on React state). -/
def updateNavigationState (calculateDistance calculateBearing : ℚ → ℚ → ℚ → ℚ → ℚ)
    (pathNodes : List PathNode) (userHeading : Option ℚ) (location : GPSLocation)
    (s : EngineState) : EngineState :=
  if pathNodes.length = 0 then
    { s with movementInstruction := "No path nodes available" }
  else
    match findNearestNode calculateDistance location pathNodes with
    | none => { s with nearestNodeIndex := none }
    | some nearest =>
      let nextIndex := if nearest < pathNodes.length - 1 then nearest + 1 else nearest
      let nextNode := pathNodes.getD nextIndex dummyPathNode
      let distToNext := calculateDistance location.latitude location.longitude
        nextNode.coordinates.latitude nextNode.coordinates.longitude
      let bearingToNext := calculateBearing location.latitude location.longitude
        nextNode.coordinates.latitude nextNode.coordinates.longitude
      let relBearing : ℚ :=
        match userHeading with
        | some h => normalizeBearingDifference (bearingToNext - h)
        | none => 0
      let arrivedAtNext := decide (distToNext < ARRIVAL_THRESHOLD)
      let arrivedAtDest := decide (nextIndex = pathNodes.length - 1) && arrivedAtNext
      { s with
        nearestNodeIndex := some nearest
        distance := distToNext
        relativeBearing := relBearing
        arrivednextNode := arrivedAtNext
        arriveAtDestination := arrivedAtDest
        movementInstruction := generateMovementInstruction relBearing distToNext (some nextNode) }

/-- The `GPSLocation` record built from the raw callback position (lines 289-294). -/
def positionLocation (position : GeoPosition) : GPSLocation where
  latitude := position.coords.latitude
  longitude := position.coords.longitude
  accuracy := position.coords.accuracy
  timestamp := position.timestamp

/-- Handle location updates (`handleLocationUpdate`, lines 287-306):
`setCurrentLocation`, then `setUserHeading` when the fix carries a defined
non-negative heading, then `updateNavigationState(location)`.  The
`updateNavigationState` closure reads the render-time `userHeading`
(`s.userHeading`), not the heading just recorded. -/
def handleLocationUpdate (calculateDistance calculateBearing : ℚ → ℚ → ℚ → ℚ → ℚ)
    (pathNodes : List PathNode) (s : EngineState) (position : GeoPosition) : EngineState :=
  let location := positionLocation position
  let s1 := { s with currentLocation := some location }
  let s2 :=
    match position.coords.heading with
    | some h => if 0 ≤ h then { s1 with userHeading := some h } else s1
    | none => s1
  updateNavigationState calculateDistance calculateBearing pathNodes s.userHeading location s2

/-- Handle location errors (`handleLocationError`, lines 311-314): only the
instruction text changes; `watchIdRef` is not cleared. -/
def handleLocationError (s : EngineState) (error : GeoError) : EngineState :=
  { s with movementInstruction := "Location error: " ++ error.message }

/-- The `nextNodeIndex` field of the published hook snapshot (lines 350-352). -/
def nextNodeIndexPublished (pathNodes : List PathNode) (nearestNodeIndex : Option ℕ) : Option ℕ :=
  match nearestNodeIndex with
  | some i => if i < pathNodes.length - 1 then some (i + 1) else some i
  | none => none

/-- Distance from a location to a node as the engine computes it (abbreviation
for statements; unfolds to the source call shape). -/
def nodeDist (calculateDistance : ℚ → ℚ → ℚ → ℚ → ℚ) (location : GPSLocation)
    (n : PathNode) : ℚ :=
  calculateDistance location.latitude location.longitude
    n.coordinates.latitude n.coordinates.longitude

/-- Bearing from a location to a node as the engine computes it (abbreviation
for statements; unfolds to the source call shape). -/
def nodeBear (calculateBearing : ℚ → ℚ → ℚ → ℚ → ℚ) (location : GPSLocation)
    (n : PathNode) : ℚ :=
  calculateBearing location.latitude location.longitude
    n.coordinates.latitude n.coordinates.longitude

/-!
Spec-side composition policy for the instruction generator (§4.3 of the
spec, as restated by claim C5): arrival short-circuit, then a base phrase
from bearing thresholds, an override REPLACING the base phrase when the
target carries a (non-empty, per JavaScript truthiness — claim C10) custom
instruction, then landmark, floor and distance suffixes appended in order.
These definitions follow the words of the spec; the refinement theorem
compares them with `generateMovementInstruction`, which follows the code.
-/

/-- Base phrase from relative bearing thresholds (spec §4.3 step 2). -/
def basePhrase (relativeBearing : ℚ) : String :=
  if relativeBearing < -45 then "Turn left"
  else if relativeBearing > 45 then "Turn right"
  else if relativeBearing < -15 then "Slight left"
  else if relativeBearing > 15 then "Slight right"
  else "Continue straight"

/-- Override-or-base (spec §4.3 step 3): a custom instruction carried by the
target replaces the base phrase entirely; an absent or empty override keeps
the base phrase. -/
def overrideOrBase (nextNode : Option PathNode) (relativeBearing : ℚ) : String :=
  match nextNode with
  | some n =>
    match n.instructionText with
    | some t => if t = "" then basePhrase relativeBearing else t
    | none => basePhrase relativeBearing
  | none => basePhrase relativeBearing

/-- Landmark suffix (spec §4.3 step 4). -/
def landmarkSuffix (nextNode : Option PathNode) : String :=
  match nextNode with
  | some n =>
    match n.landmark with
    | some lm => " toward " ++ lm.name
    | none => ""
  | none => ""

/-- Floor suffix (spec §4.3 step 5): only when the target is flagged indoor
and has a floor value. -/
def floorSuffix (nextNode : Option PathNode) : String :=
  match nextNode with
  | some n =>
    match n.floor with
    | some f => if n.isIndoor then " (Floor " ++ toString f ++ ")" else ""
    | none => ""
  | none => ""

/-- Distance suffix (spec §4.3 step 6): nearest 10 m above 100 m, nearest
meter for positive distances up to 100 m, nothing at distance 0. -/
def distanceSuffix (distance : ℚ) : String :=
  if distance > 100 then " in " ++ toString (jsRound (distance / 10) * 10) ++ "m"
  else if distance > 0 then " in " ++ toString (jsRound distance) ++ "m"
  else ""

/-- The full spec-side policy (spec §4.3, steps 1-6 in order). -/
def instructionPolicy (relativeBearing : ℚ) (distance : ℚ) (nextNode : Option PathNode) : String :=
  if distance < ARRIVAL_THRESHOLD then
    "You have reached the waypoint"
  else
    overrideOrBase nextNode relativeBearing ++ landmarkSuffix nextNode ++
      floorSuffix nextNode ++ distanceSuffix distance

set_option maxHeartbeats 1000000 in
/-- The code-side instruction generator coincides with the spec-side
composition policy on every input. -/
lemma gen_eq_policy (relativeBearing distance : ℚ) (nextNode : Option PathNode) :
    generateMovementInstruction relativeBearing distance nextNode =
      instructionPolicy relativeBearing distance nextNode := by
  rcases nextNode with _ | ⟨nid, nroute, ncoords, norder, ntype, ndesc, nhead, ntext, nlm, nfl, nind⟩
  · simp only [generateMovementInstruction, instructionPolicy, overrideOrBase,
      landmarkSuffix, floorSuffix, distanceSuffix, basePhrase]
    generalize (if relativeBearing < -45 then "Turn left"
      else if relativeBearing > 45 then "Turn right"
      else if relativeBearing < -15 then "Slight left"
      else if relativeBearing > 15 then "Slight right"
      else "Continue straight") = b
    split_ifs <;> simp
  · rcases ntext with _ | t <;> rcases nlm with _ | lm <;> rcases nfl with _ | f <;>
      rcases nind with _ | _ <;>
      (simp only [generateMovementInstruction, instructionPolicy, overrideOrBase,
        landmarkSuffix, floorSuffix, distanceSuffix, basePhrase]
       generalize (if relativeBearing < -45 then "Turn left"
         else if relativeBearing > 45 then "Turn right"
         else if relativeBearing < -15 then "Slight left"
         else if relativeBearing > 15 then "Slight right"
         else "Continue straight") = b
       split_ifs <;> simp)

/-- The running minimum produced by the scan loop never exceeds its starting
value and is a lower bound on the distance of every node it examines. -/
lemma findNearestGo_snd_le (cd : ℚ → ℚ → ℚ → ℚ → ℚ) (loc : GPSLocation)
    (rest : List PathNode) :
    ∀ (i b : ℕ) (m : ℚ),
      (findNearestGo cd loc rest i b m).2 ≤ m ∧
      ∀ j, j < rest.length →
        (findNearestGo cd loc rest i b m).2 ≤ nodeDist cd loc (rest.getD j dummyPathNode) := by
  induction rest with
  | nil =>
    intro i b m
    refine ⟨le_refl m, ?_⟩
    intro j hj
    simp at hj
  | cons node rest ih =>
    intro i b m
    simp only [findNearestGo]
    split_ifs with hd
    · obtain ⟨h1, h2⟩ := ih (i + 1) i
        (cd loc.latitude loc.longitude node.coordinates.latitude node.coordinates.longitude)
      refine ⟨h1.trans hd.le, ?_⟩
      intro j hj
      cases j with
      | zero => exact h1
      | succ j =>
        simp only [List.getD_cons_succ]
        exact h2 j (by simpa using hj)
    · obtain ⟨h1, h2⟩ := ih (i + 1) b m
      refine ⟨h1, ?_⟩
      intro j hj
      cases j with
      | zero => exact h1.trans (not_lt.mp hd)
      | succ j =>
        simp only [List.getD_cons_succ]
        exact h2 j (by simpa using hj)

/-- The scan loop either keeps its incoming running minimum, or returns the
absolute position (`i + j`) of a node of `rest` whose distance is the new
minimum, is strictly below the incoming minimum, and is strictly below the
distance of every node of `rest` before it (the strict `<` update keeps the
FIRST occurrence of the minimum). -/
lemma findNearestGo_fst_spec (cd : ℚ → ℚ → ℚ → ℚ → ℚ) (loc : GPSLocation)
    (rest : List PathNode) :
    ∀ (i b : ℕ) (m : ℚ),
      ((findNearestGo cd loc rest i b m).1 = b ∧ (findNearestGo cd loc rest i b m).2 = m) ∨
      ∃ j, j < rest.length ∧ (findNearestGo cd loc rest i b m).1 = i + j ∧
        (findNearestGo cd loc rest i b m).2 = nodeDist cd loc (rest.getD j dummyPathNode) ∧
        (findNearestGo cd loc rest i b m).2 < m ∧
        ∀ k, k < j →
          (findNearestGo cd loc rest i b m).2 < nodeDist cd loc (rest.getD k dummyPathNode) := by
  induction rest with
  | nil =>
    intro i b m
    exact Or.inl ⟨rfl, rfl⟩
  | cons node rest ih =>
    intro i b m
    simp only [findNearestGo]
    split_ifs with hd
    · rcases ih (i + 1) i
        (cd loc.latitude loc.longitude node.coordinates.latitude node.coordinates.longitude)
        with ⟨hf, hs⟩ | ⟨j, hj, hf, hs, hlt, hfirst⟩
      · refine Or.inr ⟨0, by simp, by omega, ?_, ?_, ?_⟩
        · simpa [List.getD_cons_zero, nodeDist] using hs
        · rw [hs]; exact hd
        · intro k hk; exact absurd hk (Nat.not_lt_zero k)
      · refine Or.inr ⟨j + 1, by simpa using hj, by omega, ?_, ?_, ?_⟩
        · simpa [List.getD_cons_succ] using hs
        · exact hlt.trans hd
        · intro k hk
          cases k with
          | zero =>
            simpa [List.getD_cons_zero, nodeDist] using hlt
          | succ k =>
            simp only [List.getD_cons_succ]
            exact hfirst k (by omega)
    · rcases ih (i + 1) b m
        with ⟨hf, hs⟩ | ⟨j, hj, hf, hs, hlt, hfirst⟩
      · exact Or.inl ⟨hf, hs⟩
      · refine Or.inr ⟨j + 1, by simpa using hj, by omega, ?_, hlt, ?_⟩
        · simpa [List.getD_cons_succ] using hs
        · intro k hk
          cases k with
          | zero =>
            have : (findNearestGo cd loc rest (i + 1) b m).2 <
                cd loc.latitude loc.longitude node.coordinates.latitude node.coordinates.longitude :=
              lt_of_lt_of_le hlt (not_lt.mp hd)
            simpa [List.getD_cons_zero, nodeDist] using this
          | succ k =>
            simp only [List.getD_cons_succ]
            exact hfirst k (by omega)

/-- `findNearestNode` returns `none` exactly on the empty waypoint list. -/
lemma findNearestNode_eq_none_iff (cd : ℚ → ℚ → ℚ → ℚ → ℚ) (loc : GPSLocation)
    (nodes : List PathNode) :
    findNearestNode cd loc nodes = none ↔ nodes = [] := by
  cases nodes <;> simp [findNearestNode]

/-- A returned index is in bounds, the distance of its node is minimal over the
whole list, and every earlier index has strictly larger distance. -/
lemma findNearestNode_some_spec (cd : ℚ → ℚ → ℚ → ℚ → ℚ) (loc : GPSLocation)
    (nodes : List PathNode) (k : ℕ) (h : findNearestNode cd loc nodes = some k) :
    k < nodes.length ∧
    (∀ j, j < nodes.length →
      nodeDist cd loc (nodes.getD k dummyPathNode) ≤ nodeDist cd loc (nodes.getD j dummyPathNode)) ∧
    (∀ j, j < k →
      nodeDist cd loc (nodes.getD k dummyPathNode) < nodeDist cd loc (nodes.getD j dummyPathNode)) := by
  cases nodes with
  | nil => simp [findNearestNode] at h
  | cons first rest =>
    simp only [findNearestNode, Option.some.injEq] at h
    obtain ⟨hle, hall⟩ := findNearestGo_snd_le cd loc rest 1 0
      (cd loc.latitude loc.longitude first.coordinates.latitude first.coordinates.longitude)
    rcases findNearestGo_fst_spec cd loc rest 1 0
      (cd loc.latitude loc.longitude first.coordinates.latitude first.coordinates.longitude)
      with ⟨hf, hs⟩ | ⟨j, hj, hf, hs, hlt, hfirst⟩
    · have hk0 : k = 0 := by rw [← h, hf]
      subst hk0
      refine ⟨by simp, ?_, ?_⟩
      · intro j hjlen
        cases j with
        | zero => exact le_refl _
        | succ j =>
          have := hall j (by simpa using hjlen)
          rw [hs] at this
          simpa [List.getD_cons_zero, List.getD_cons_succ, nodeDist] using this
      · intro j hj0
        exact absurd hj0 (Nat.not_lt_zero j)
    · have hk : k = j + 1 := by omega
      subst hk
      refine ⟨by simpa using hj, ?_, ?_⟩
      · intro j' hjlen
        have hkval : nodeDist cd loc ((first :: rest).getD (j + 1) dummyPathNode) =
            (findNearestGo cd loc rest 1 0
              (cd loc.latitude loc.longitude first.coordinates.latitude
                first.coordinates.longitude)).2 := by
          rw [hs]
          simp [List.getD_cons_succ]
        rw [hkval]
        cases j' with
        | zero =>
          simpa [List.getD_cons_zero, nodeDist] using hlt.le
        | succ j' =>
          simp only [List.getD_cons_succ]
          exact hall j' (by simpa using hjlen)
      · intro j' hj'
        have hkval : nodeDist cd loc ((first :: rest).getD (j + 1) dummyPathNode) =
            (findNearestGo cd loc rest 1 0
              (cd loc.latitude loc.longitude first.coordinates.latitude
                first.coordinates.longitude)).2 := by
          rw [hs]
          simp [List.getD_cons_succ]
        rw [hkval]
        cases j' with
        | zero =>
          simpa [List.getD_cons_zero, nodeDist] using hlt
        | succ j' =>
          simp only [List.getD_cons_succ]
          exact hfirst j' (by omega)

/-- On a non-empty waypoint list `findNearestNode` yields a valid index. -/
lemma findNearestNode_nonempty (cd : ℚ → ℚ → ℚ → ℚ → ℚ) (loc : GPSLocation)
    (nodes : List PathNode) (h : nodes ≠ []) :
    ∃ k, findNearestNode cd loc nodes = some k ∧ k < nodes.length := by
  cases hk : findNearestNode cd loc nodes with
  | none => exact absurd ((findNearestNode_eq_none_iff cd loc nodes).mp hk) h
  | some k => exact ⟨k, rfl, (findNearestNode_some_spec cd loc nodes k hk).1⟩

/-- The clamp of the source (`nearest < length - 1 ? nearest + 1 : nearest`)
written as a minimum, valid whenever `nearest` is in bounds. -/
lemma nextIndex_eq_min (k n : ℕ) (hk : k < n) :
    (if k < n - 1 then k + 1 else k) = min (k + 1) (n - 1) := by
  split <;> omega

/-- Full characterization of one accepted update on a non-empty waypoint list:
the state published by `updateNavigationState` in terms of the nearest index
`k`, the clamped next index, and the distance/bearing to the next node. -/
lemma updateNavigationState_some_eq (cd cb : ℚ → ℚ → ℚ → ℚ → ℚ)
    (nodes : List PathNode) (uh : Option ℚ) (loc : GPSLocation) (s : EngineState)
    (k : ℕ) (hk : findNearestNode cd loc nodes = some k) (hne : nodes.length ≠ 0) :
    updateNavigationState cd cb nodes uh loc s =
      (let ni := min (k + 1) (nodes.length - 1)
       let nn := nodes.getD ni dummyPathNode
       let dN := nodeDist cd loc nn
       let rB : ℚ := match uh with
         | some h => normalizeBearingDifference (nodeBear cb loc nn - h)
         | none => 0
       { s with
         nearestNodeIndex := some k
         distance := dN
         relativeBearing := rB
         arrivednextNode := decide (dN < ARRIVAL_THRESHOLD)
         arriveAtDestination := decide (ni = nodes.length - 1) && decide (dN < ARRIVAL_THRESHOLD)
         movementInstruction := generateMovementInstruction rB dN (some nn) }) := by
  have hklen := (findNearestNode_some_spec cd loc nodes k hk).1
  simp only [updateNavigationState, if_neg hne, hk, nextIndex_eq_min k nodes.length hklen]
  rfl

/-!
Concrete fixtures used by witness and counterexample theorems.  `cdLat`
is a degenerate metric under which the distance from anywhere to a node is
the latitude of the node, so scan behavior (including ties) can be dictated by
choosing latitudes; `cbConst90` is a bearing function that always reports
90 degrees.
-/

/-- Fixture metric: distance to a node is the latitude of that node. -/
def cdLat : ℚ → ℚ → ℚ → ℚ → ℚ := fun _ _ lat2 _ => lat2

/-- Fixture bearing: always 90 degrees. -/
def cbConst90 : ℚ → ℚ → ℚ → ℚ → ℚ := fun _ _ _ _ => 90

/-- Fixture node at the given coordinates, all optional metadata absent. -/
def mkNode (la lo : ℚ) : PathNode :=
  { dummyPathNode with coordinates := ⟨la, lo⟩ }

/-- Fixture location at the origin. -/
def locO : GPSLocation := ⟨0, 0, 5, 0⟩

/-- Fixture fix carrying a valid heading of 30 degrees. -/
def posHeading30 : GeoPosition := ⟨⟨0, 0, 5, some 30⟩, 0⟩

/-- Fixture fix carrying a valid heading of 45 degrees. -/
def posHeading45 : GeoPosition := ⟨⟨0, 0, 5, some 45⟩, 0⟩

/-- Fixture single-node list; under `cdLat` its node is 100 m away. -/
def nodesSingle : List PathNode := [mkNode 100 0]

/-- Fixture list with a tie: under `cdLat` the distances are 5, 3, 3. -/
def nodesTie : List PathNode := [mkNode 5 0, mkNode 3 0, mkNode 3 1]

/-- Fixture node carrying an empty-string instruction override and a landmark. -/
def nodeEmptyText : PathNode :=
  { dummyPathNode with instructionText := some "", landmark := some ⟨"Library", "main"⟩ }

/-- Claim C1: for every accepted location update with a non-empty waypoint
list, the next waypoint index equals min(nearestIndex + 1, lastIndex) — both
the index the engine uses internally to compute distance, bearing and
instruction, and the `nextNodeIndex` field of the published snapshot. -/
theorem claim1_next_index_clamped (cd cb : ℚ → ℚ → ℚ → ℚ → ℚ) (nodes : List PathNode)
    (uh : Option ℚ) (loc : GPSLocation) (s : EngineState) (hne : nodes ≠ []) :
    ∃ k, findNearestNode cd loc nodes = some k ∧
      (updateNavigationState cd cb nodes uh loc s).nearestNodeIndex = some k ∧
      (updateNavigationState cd cb nodes uh loc s).distance =
        nodeDist cd loc (nodes.getD (min (k + 1) (nodes.length - 1)) dummyPathNode) ∧
      (updateNavigationState cd cb nodes uh loc s).relativeBearing =
        (match uh with
         | some h => normalizeBearingDifference
             (nodeBear cb loc (nodes.getD (min (k + 1) (nodes.length - 1)) dummyPathNode) - h)
         | none => 0) ∧
      (updateNavigationState cd cb nodes uh loc s).movementInstruction =
        generateMovementInstruction
          (updateNavigationState cd cb nodes uh loc s).relativeBearing
          (updateNavigationState cd cb nodes uh loc s).distance
          (some (nodes.getD (min (k + 1) (nodes.length - 1)) dummyPathNode)) ∧
      nextNodeIndexPublished nodes (updateNavigationState cd cb nodes uh loc s).nearestNodeIndex =
        some (min (k + 1) (nodes.length - 1)) := by
  have hne0 : nodes.length ≠ 0 := by simpa [List.length_eq_zero] using hne
  obtain ⟨k, hk, hklen⟩ := findNearestNode_nonempty cd loc nodes hne
  refine ⟨k, hk, ?_⟩
  rw [updateNavigationState_some_eq cd cb nodes uh loc s k hk hne0]
  refine ⟨rfl, rfl, rfl, rfl, ?_⟩
  simp only [nextNodeIndexPublished]
  split <;> (simp only [Option.some.injEq]; omega)

/-- Claim C2: the published arrival flags are recomputed from scratch on each
accepted update: "arrived at next" holds exactly when the distance to the next
waypoint is strictly below 15 m, and "arrived at destination" holds exactly
when additionally the next index is the last index; a fix at or beyond 15 m
forces the destination flag to false no matter what the previous state was. -/
theorem claim2_arrival_flags (cd cb : ℚ → ℚ → ℚ → ℚ → ℚ) (nodes : List PathNode)
    (uh : Option ℚ) (loc : GPSLocation) (s : EngineState) (hne : nodes ≠ []) :
    ∃ k, findNearestNode cd loc nodes = some k ∧
      ((updateNavigationState cd cb nodes uh loc s).arrivednextNode = true ↔
        nodeDist cd loc (nodes.getD (min (k + 1) (nodes.length - 1)) dummyPathNode) < 15) ∧
      ((updateNavigationState cd cb nodes uh loc s).arriveAtDestination = true ↔
        (min (k + 1) (nodes.length - 1) = nodes.length - 1 ∧
          nodeDist cd loc (nodes.getD (min (k + 1) (nodes.length - 1)) dummyPathNode) < 15)) ∧
      (15 ≤ nodeDist cd loc (nodes.getD (min (k + 1) (nodes.length - 1)) dummyPathNode) →
        (updateNavigationState cd cb nodes uh loc s).arriveAtDestination = false) := by
  have hne0 : nodes.length ≠ 0 := by simpa [List.length_eq_zero] using hne
  obtain ⟨k, hk, hklen⟩ := findNearestNode_nonempty cd loc nodes hne
  have part1 : (updateNavigationState cd cb nodes uh loc s).arrivednextNode = true ↔
      nodeDist cd loc (nodes.getD (min (k + 1) (nodes.length - 1)) dummyPathNode) < 15 := by
    rw [updateNavigationState_some_eq cd cb nodes uh loc s k hk hne0]
    simp [ARRIVAL_THRESHOLD]
  have part2 : (updateNavigationState cd cb nodes uh loc s).arriveAtDestination = true ↔
      (min (k + 1) (nodes.length - 1) = nodes.length - 1 ∧
        nodeDist cd loc (nodes.getD (min (k + 1) (nodes.length - 1)) dummyPathNode) < 15) := by
    rw [updateNavigationState_some_eq cd cb nodes uh loc s k hk hne0]
    simp [ARRIVAL_THRESHOLD]
  refine ⟨k, hk, part1, part2, ?_⟩
  intro hfar
  cases hflag : (updateNavigationState cd cb nodes uh loc s).arriveAtDestination
  · rfl
  · exact absurd (part2.mp hflag).2 (not_lt.mpr hfar)

/-- Claim C3, amended: the relative bearing published for a fix is computed
from the heading known BEFORE that fix was processed (the render-time value
of `userHeading` captured by the `useCallback` closure); a heading carried by
the fix itself is recorded for LATER updates only, and when no heading was
previously known the relative bearing is 0 even if the current fix carries a
valid heading. -/
theorem claim3_relative_bearing_stale_heading (cd cb : ℚ → ℚ → ℚ → ℚ → ℚ)
    (nodes : List PathNode) (s : EngineState) (pos : GeoPosition) (hne : nodes ≠ []) :
    ∃ k, findNearestNode cd (positionLocation pos) nodes = some k ∧
      (handleLocationUpdate cd cb nodes s pos).relativeBearing =
        (match s.userHeading with
         | some h => normalizeBearingDifference
             (nodeBear cb (positionLocation pos)
               (nodes.getD (min (k + 1) (nodes.length - 1)) dummyPathNode) - h)
         | none => 0) := by
  have hne0 : nodes.length ≠ 0 := by simpa [List.length_eq_zero] using hne
  obtain ⟨k, hk, hklen⟩ := findNearestNode_nonempty cd (positionLocation pos) nodes hne
  refine ⟨k, hk, ?_⟩
  simp only [handleLocationUpdate]
  rw [updateNavigationState_some_eq cd cb nodes s.userHeading (positionLocation pos) _ k hk hne0]

/-- Claim C3, counterexample: a fix that carries a valid heading of 30, while
no heading was previously known, is published with relative bearing 0 — not
with normalizeBearingDelta(bearingToNext - 30) = 60 as the claim (which says
the heading recorded from the same fix is used) would require. -/
theorem claim3_counterexample :
    (handleLocationUpdate cdLat cbConst90 nodesSingle initialEngineState posHeading30).userHeading
        = some 30 ∧
    nodeBear cbConst90 (positionLocation posHeading30) (nodesSingle.getD 0 dummyPathNode) = 90 ∧
    normalizeBearingDifference (90 - 30) = 60 ∧
    (handleLocationUpdate cdLat cbConst90 nodesSingle initialEngineState posHeading30).relativeBearing
        = 0 ∧
    ¬ ((0 : ℚ) = 60) := by
  refine ⟨?_, ?_, ?_, ?_, ?_⟩ <;> with_unfolding_all decide

/-- Claim C4: for distances at or above the 15 m arrival threshold the
instruction generator starts from the bearing-derived base phrase, and that
base phrase is "Turn left" exactly below -45, "Turn right" exactly above 45,
"Slight left" on [-45, -15), "Slight right" on (15, 45], "Continue straight"
on [-15, 15]; in particular exactly 45 gives "Slight right" and exactly -45
gives "Slight left". -/
theorem claim4_base_phrase_thresholds (rb d : ℚ) (hd : 15 ≤ d) :
    (generateMovementInstruction rb d none = basePhrase rb ++ distanceSuffix d) ∧
    (basePhrase rb = "Turn left" ↔ rb < -45) ∧
    (basePhrase rb = "Turn right" ↔ 45 < rb) ∧
    (basePhrase rb = "Slight left" ↔ (-45 ≤ rb ∧ rb < -15)) ∧
    (basePhrase rb = "Slight right" ↔ (15 < rb ∧ rb ≤ 45)) ∧
    (basePhrase rb = "Continue straight" ↔ (-15 ≤ rb ∧ rb ≤ 15)) ∧
    basePhrase 45 = "Slight right" ∧ basePhrase (-45) = "Slight left" := by
  have hnotarr : ¬ d < ARRIVAL_THRESHOLD := by
    simp only [ARRIVAL_THRESHOLD, not_lt]
    exact hd
  refine ⟨?_, ?_, ?_, ?_, ?_, ?_, ?_, ?_⟩
  · rw [gen_eq_policy]
    simp [instructionPolicy, overrideOrBase, landmarkSuffix, floorSuffix, hnotarr]
  · unfold basePhrase
    split_ifs <;> simp
    all_goals intros
    all_goals first | linarith | exact ⟨by linarith, by linarith⟩
  · unfold basePhrase
    split_ifs <;> simp
    all_goals intros
    all_goals first | linarith | exact ⟨by linarith, by linarith⟩
  · unfold basePhrase
    split_ifs <;> simp
    all_goals intros
    all_goals first | linarith | exact ⟨by linarith, by linarith⟩
  · unfold basePhrase
    split_ifs <;> simp
    all_goals intros
    all_goals first | linarith | exact ⟨by linarith, by linarith⟩
  · unfold basePhrase
    split_ifs <;> simp
    all_goals intros
    all_goals first | linarith | exact ⟨by linarith, by linarith⟩
  · norm_num [basePhrase]
  · norm_num [basePhrase]

/-- Claim C5: the instruction generator equals the spec-side composition
policy on every input: arrival message below 15 m with no composition;
otherwise the bearing base phrase, replaced wholesale by a (non-empty) custom
override, then landmark suffix, then indoor floor suffix, then the distance
suffix (tens above 100 m, meters for positive distances up to 100 m, nothing
at 0). -/
theorem claim5_instruction_composition (relativeBearing distance : ℚ)
    (nextNode : Option PathNode) :
    generateMovementInstruction relativeBearing distance nextNode =
      instructionPolicy relativeBearing distance nextNode :=
  gen_eq_policy relativeBearing distance nextNode

/-- Claim C6: `findNearestNode` returns none exactly on the empty list; on a
non-empty list any returned index is valid, the distance of its waypoint is minimal
over the whole list, every strictly earlier index is strictly farther (ties
broken by first occurrence, because the ascending scan only updates on a
strict `<`), and a single-waypoint list always yields index 0. -/
theorem claim6_find_nearest_spec (cd : ℚ → ℚ → ℚ → ℚ → ℚ) (loc : GPSLocation)
    (nodes : List PathNode) :
    (findNearestNode cd loc nodes = none ↔ nodes = []) ∧
    (∀ k, findNearestNode cd loc nodes = some k →
      k < nodes.length ∧
      (∀ j, j < nodes.length →
        nodeDist cd loc (nodes.getD k dummyPathNode) ≤
          nodeDist cd loc (nodes.getD j dummyPathNode)) ∧
      (∀ j, j < k →
        nodeDist cd loc (nodes.getD k dummyPathNode) <
          nodeDist cd loc (nodes.getD j dummyPathNode))) ∧
    (∀ n, findNearestNode cd loc [n] = some 0) :=
  ⟨findNearestNode_eq_none_iff cd loc nodes,
   fun k hk => findNearestNode_some_spec cd loc nodes k hk,
   fun _ => rfl⟩

/-- Claim C7, amended: an update arriving while the waypoint list is empty
publishes only the instruction "No path nodes available" and preserves the
indices, distance, relative bearing, arrival flags and subscription handle —
but NOT the heading, which is still recorded from the fix (when present and
non-negative) because the source records heading before the empty-list check;
a location-source error rewrites only the instruction to
"Location error: <message>" and preserves every other field including the
subscription handle. -/
theorem claim7_error_reporting (cd cb : ℚ → ℚ → ℚ → ℚ → ℚ) (s : EngineState)
    (pos : GeoPosition) (e : GeoError) :
    ((handleLocationUpdate cd cb [] s pos).movementInstruction = "No path nodes available" ∧
     (handleLocationUpdate cd cb [] s pos).nearestNodeIndex = s.nearestNodeIndex ∧
     (handleLocationUpdate cd cb [] s pos).distance = s.distance ∧
     (handleLocationUpdate cd cb [] s pos).relativeBearing = s.relativeBearing ∧
     (handleLocationUpdate cd cb [] s pos).arrivednextNode = s.arrivednextNode ∧
     (handleLocationUpdate cd cb [] s pos).arriveAtDestination = s.arriveAtDestination ∧
     (handleLocationUpdate cd cb [] s pos).watchId = s.watchId ∧
     (handleLocationUpdate cd cb [] s pos).userHeading =
       (match pos.coords.heading with
        | some h => if 0 ≤ h then some h else s.userHeading
        | none => s.userHeading)) ∧
    handleLocationError s e = { s with movementInstruction := "Location error: " ++ e.message } := by
  refine ⟨?_, rfl⟩
  rcases pos with ⟨⟨plat, plon, pacc, phead⟩, pts⟩
  rcases phead with _ | h
  · exact ⟨rfl, rfl, rfl, rfl, rfl, rfl, rfl, rfl⟩
  · by_cases h0 : (0 : ℚ) ≤ h <;>
      simp [handleLocationUpdate, updateNavigationState, positionLocation, h0]

/-- Claim C7, counterexample: with an empty waypoint list, a fix carrying the
valid heading 45 still overwrites the stored heading (from none to some 45),
so "every other navigation-state field (... heading ...) keeps its previous
value" fails as stated. -/
theorem claim7_counterexample :
    initialEngineState.userHeading = none ∧
    (handleLocationUpdate cdLat cbConst90 [] initialEngineState posHeading45).movementInstruction =
      "No path nodes available" ∧
    (handleLocationUpdate cdLat cbConst90 [] initialEngineState posHeading45).userHeading =
      some 45 := by
  refine ⟨rfl, ?_, ?_⟩ <;> with_unfolding_all decide

/-- Claim C8: heading is sticky — the stored heading is overwritten exactly
when the incoming fix carries a present, non-negative heading; an absent or
negative heading leaves the previously known heading unchanged. -/
theorem claim8_heading_sticky (cd cb : ℚ → ℚ → ℚ → ℚ → ℚ) (nodes : List PathNode)
    (s : EngineState) (pos : GeoPosition) :
    (handleLocationUpdate cd cb nodes s pos).userHeading =
      (match pos.coords.heading with
       | some h => if 0 ≤ h then some h else s.userHeading
       | none => s.userHeading) := by
  have hpres : ∀ (uh : Option ℚ) (loc : GPSLocation) (t : EngineState),
      (updateNavigationState cd cb nodes uh loc t).userHeading = t.userHeading := by
    intro uh loc t
    unfold updateNavigationState
    split
    · rfl
    · split <;> rfl
  simp only [handleLocationUpdate, hpres]
  rcases pos with ⟨⟨plat, plon, pacc, phead⟩, pts⟩
  rcases phead with _ | h
  · rfl
  · dsimp only
    split <;> rfl

/-- Claim C9, amended: for inputs in [-360, 360] (the range the caller
guarantees, per the spec) the output of `normalizeBearingDifference` lies in
[-180, 180]; and the function is idempotent on every input whose image is
already in [-180, 180].  (The unrestricted range claim is false: see the
counterexample at 541.) -/
theorem claim9_normalize_range_idem (x : ℚ) :
    (-360 ≤ x → x ≤ 360 →
      -180 ≤ normalizeBearingDifference x ∧ normalizeBearingDifference x ≤ 180) ∧
    (-180 ≤ normalizeBearingDifference x → normalizeBearingDifference x ≤ 180 →
      normalizeBearingDifference (normalizeBearingDifference x) = normalizeBearingDifference x) := by
  unfold normalizeBearingDifference
  constructor
  · intro h1 h2
    split_ifs <;> constructor <;> linarith
  · intro h1 h2
    split_ifs at h1 h2 ⊢ <;> linarith

/-- Claim C9, counterexample: `normalizeBearingDifference 541 = 181`, outside
[-180, 180] — a single ±360 correction does not suffice for arbitrary real
inputs, so the unrestricted "for every real-valued input" part of the claim
is false. -/
theorem claim9_counterexample :
    normalizeBearingDifference 541 = 181 ∧ ¬ (normalizeBearingDifference 541 ≤ 180) := by
  refine ⟨?_, ?_⟩ <;> with_unfolding_all decide

/-- Claim C10: a present-but-empty custom instruction override is ignored —
the generator behaves exactly as if the override were absent, keeping the
bearing-derived base phrase and appending the same suffixes (a consequence of
JavaScript truthiness: the empty string is falsy). -/
theorem claim10_empty_override_ignored (rb d : ℚ) (n : PathNode)
    (h : n.instructionText = some "") :
    generateMovementInstruction rb d (some n) =
      generateMovementInstruction rb d (some { n with instructionText := none }) := by
  rcases n with ⟨nid, nroute, ncoords, norder, ntype, ndesc, nhead, ntext, nlm, nfl, nind⟩
  simp only at h
  subst h
  rfl

/-- Witness for C1 at a concrete three-node list with heading 10. -/
theorem claim1_witness :
    nodesTie ≠ [] ∧
    (∃ k, findNearestNode cdLat locO nodesTie = some k ∧
      (updateNavigationState cdLat cbConst90 nodesTie (some 10) locO
        initialEngineState).nearestNodeIndex = some k ∧
      (updateNavigationState cdLat cbConst90 nodesTie (some 10) locO
        initialEngineState).distance =
        nodeDist cdLat locO (nodesTie.getD (min (k + 1) (nodesTie.length - 1)) dummyPathNode) ∧
      (updateNavigationState cdLat cbConst90 nodesTie (some 10) locO
        initialEngineState).relativeBearing =
        (match (some (10 : ℚ)) with
         | some h => normalizeBearingDifference
             (nodeBear cbConst90 locO
               (nodesTie.getD (min (k + 1) (nodesTie.length - 1)) dummyPathNode) - h)
         | none => 0) ∧
      (updateNavigationState cdLat cbConst90 nodesTie (some 10) locO
        initialEngineState).movementInstruction =
        generateMovementInstruction
          (updateNavigationState cdLat cbConst90 nodesTie (some 10) locO
            initialEngineState).relativeBearing
          (updateNavigationState cdLat cbConst90 nodesTie (some 10) locO
            initialEngineState).distance
          (some (nodesTie.getD (min (k + 1) (nodesTie.length - 1)) dummyPathNode)) ∧
      nextNodeIndexPublished nodesTie
          (updateNavigationState cdLat cbConst90 nodesTie (some 10) locO
            initialEngineState).nearestNodeIndex =
        some (min (k + 1) (nodesTie.length - 1))) :=
  ⟨by simp [nodesTie],
   claim1_next_index_clamped cdLat cbConst90 nodesTie (some 10) locO initialEngineState
     (by simp [nodesTie])⟩

/-- Witness for C2 at a concrete single-node list with no known heading. -/
theorem claim2_witness :
    nodesSingle ≠ [] ∧
    (∃ k, findNearestNode cdLat locO nodesSingle = some k ∧
      ((updateNavigationState cdLat cbConst90 nodesSingle none locO
          initialEngineState).arrivednextNode = true ↔
        nodeDist cdLat locO
          (nodesSingle.getD (min (k + 1) (nodesSingle.length - 1)) dummyPathNode) < 15) ∧
      ((updateNavigationState cdLat cbConst90 nodesSingle none locO
          initialEngineState).arriveAtDestination = true ↔
        (min (k + 1) (nodesSingle.length - 1) = nodesSingle.length - 1 ∧
          nodeDist cdLat locO
            (nodesSingle.getD (min (k + 1) (nodesSingle.length - 1)) dummyPathNode) < 15)) ∧
      (15 ≤ nodeDist cdLat locO
          (nodesSingle.getD (min (k + 1) (nodesSingle.length - 1)) dummyPathNode) →
        (updateNavigationState cdLat cbConst90 nodesSingle none locO
          initialEngineState).arriveAtDestination = false)) :=
  ⟨by simp [nodesSingle],
   claim2_arrival_flags cdLat cbConst90 nodesSingle none locO initialEngineState
     (by simp [nodesSingle])⟩

/-- Witness for the amended C3 at a concrete fix carrying heading 30. -/
theorem claim3_witness :
    nodesSingle ≠ [] ∧
    (∃ k, findNearestNode cdLat (positionLocation posHeading30) nodesSingle = some k ∧
      (handleLocationUpdate cdLat cbConst90 nodesSingle initialEngineState
        posHeading30).relativeBearing =
        (match initialEngineState.userHeading with
         | some h => normalizeBearingDifference
             (nodeBear cbConst90 (positionLocation posHeading30)
               (nodesSingle.getD (min (k + 1) (nodesSingle.length - 1)) dummyPathNode) - h)
         | none => 0)) :=
  ⟨by simp [nodesSingle],
   claim3_relative_bearing_stale_heading cdLat cbConst90 nodesSingle initialEngineState
     posHeading30 (by simp [nodesSingle])⟩

/-- Witness for C4 at relative bearing exactly 45 and distance 45 m. -/
theorem claim4_witness :
    (15 : ℚ) ≤ 45 ∧
    ((generateMovementInstruction 45 45 none = basePhrase 45 ++ distanceSuffix 45) ∧
     (basePhrase 45 = "Turn left" ↔ (45 : ℚ) < -45) ∧
     (basePhrase 45 = "Turn right" ↔ (45 : ℚ) < 45) ∧
     (basePhrase 45 = "Slight left" ↔ ((-45 : ℚ) ≤ 45 ∧ (45 : ℚ) < -15)) ∧
     (basePhrase 45 = "Slight right" ↔ ((15 : ℚ) < 45 ∧ (45 : ℚ) ≤ 45)) ∧
     (basePhrase 45 = "Continue straight" ↔ ((-15 : ℚ) ≤ 45 ∧ (45 : ℚ) ≤ 15)) ∧
     basePhrase 45 = "Slight right" ∧ basePhrase (-45) = "Slight left") :=
  ⟨by norm_num, claim4_base_phrase_thresholds 45 45 (by norm_num)⟩

/-- Witness for C6 at a list with a distance tie (5, 3, 3): the first of the
two tied nodes, index 1, is returned. -/
theorem claim6_witness :
    findNearestNode cdLat locO nodesTie = some 1 ∧
    (1 < nodesTie.length ∧
     (∀ j, j < nodesTie.length →
       nodeDist cdLat locO (nodesTie.getD 1 dummyPathNode) ≤
         nodeDist cdLat locO (nodesTie.getD j dummyPathNode)) ∧
     (∀ j, j < 1 →
       nodeDist cdLat locO (nodesTie.getD 1 dummyPathNode) <
         nodeDist cdLat locO (nodesTie.getD j dummyPathNode))) :=
  ⟨by with_unfolding_all decide,
   (claim6_find_nearest_spec cdLat locO nodesTie).2.1 1 (by with_unfolding_all decide)⟩

/-- Witness for the amended C9 at x = 190. -/
theorem claim9_witness :
    ((-360 : ℚ) ≤ 190 ∧ (190 : ℚ) ≤ 360 ∧
     (-180 ≤ normalizeBearingDifference 190 ∧ normalizeBearingDifference 190 ≤ 180)) ∧
    ((-180 : ℚ) ≤ normalizeBearingDifference 190 ∧ normalizeBearingDifference 190 ≤ 180 ∧
     normalizeBearingDifference (normalizeBearingDifference 190) =
       normalizeBearingDifference 190) :=
  ⟨⟨by norm_num, by norm_num,
    (claim9_normalize_range_idem 190).1 (by norm_num) (by norm_num)⟩,
   ⟨by with_unfolding_all decide, by with_unfolding_all decide,
    (claim9_normalize_range_idem 190).2 (by with_unfolding_all decide)
      (by with_unfolding_all decide)⟩⟩

/-- Witness for C10 at a concrete node carrying an empty override and a
landmark. -/
theorem claim10_witness :
    nodeEmptyText.instructionText = some "" ∧
    generateMovementInstruction 0 50 (some nodeEmptyText) =
      generateMovementInstruction 0 50 (some { nodeEmptyText with instructionText := none }) :=
  ⟨rfl, claim10_empty_override_ignored 0 50 nodeEmptyText rfl⟩
